import Mathlib

/-!
Verification of the policy-recommendation `run` command of the theia CLI
(`pkg/theia/commands`, file embedded from the repository source).

The development shallowly embeds:
  * the Kubernetes resource-quantity regular expression
    `^([+-]?[0-9.]+)([eEinumkKMGTP]*[-+]?[0-9]*)$` as an executable matcher;
  * Go's `time.Parse` with the reference layout `2006-01-02 15:04:05`
    (zero-padded fields are exactly two digits, the 24-hour field accepts one
    or two digits, and, as documented for `time.Parse`, an optional
    fractional-second suffix after the seconds is accepted even though the
    layout does not mention one);
  * the flag-validation / argument-building sequence of
    `policyRecommendationRunCmd.RunE`;
  * the `SparkApplication` construction;
  * the `wait.Poll` status loop with its condition callback, the polling
    budget being modelled as `timeout / interval` condition calls;
  * the post-poll result phase (endpoint URL check, ClickHouse pod readiness
    check, result retrieval and printing), with the library and
    out-of-repository calls (`url.ParseRequestURI`, `CheckClickHousePod`,
    `getPolicyRecommendationStatus`, `getPolicyRecommendationResult`,
    `uuid.New`) abstracted as environment oracles.
-/

namespace Theia

/-! ### Constants from the source -/

def flowVisibilityNS : String := "flow-visibility"

def sparkImage : String := "antrea/theia-policy-recommendation:latest"

def sparkImagePullPolicy : String := "IfNotPresent"

def sparkAppFile : String := "local:///opt/spark/work-dir/policy_recommendation_job.py"

def sparkServiceAccount : String := "policy-reco-spark"

def sparkVersion : String := "3.1.1"

/-- `statusCheckPollInterval = 5 * time.Second`, in seconds. -/
def statusCheckPollInterval : Nat := 5

/-- `statusCheckPollTimeout = 60 * time.Minute`, in seconds. -/
def statusCheckPollTimeout : Nat := 3600

/-! ### The resource-quantity matcher

`k8sQuantitiesReg = "^([+-]?[0-9.]+)([eEinumkKMGTP]*[-+]?[0-9]*)$"`, matched
with `regexp.MatchString`.  The matcher below decides membership in exactly
that anchored regular language. -/

def isDigitOrDot (c : Char) : Bool := c.isDigit || c == '.'

def isUnitChar (c : Char) : Bool :=
  c == 'e' || c == 'E' || c == 'i' || c == 'n' || c == 'u' || c == 'm' ||
  c == 'k' || c == 'K' || c == 'M' || c == 'G' || c == 'T' || c == 'P'

def isSign (c : Char) : Bool := c == '+' || c == '-'

/-- `[-+]?[0-9]*`. -/
def matchExpTail (cs : List Char) : Bool :=
  match cs with
  | [] => true
  | c :: rest => if isSign c then rest.all (·.isDigit) else (c :: rest).all (·.isDigit)

/-- `[eEinumkKMGTP]*[-+]?[0-9]*`.  The unit characters are disjoint from
signs and digits, so greedily consuming them is complete. -/
def matchGroup2 : List Char → Bool
  | [] => true
  | c :: rest => if isUnitChar c then matchGroup2 rest else matchExpTail (c :: rest)

/-- After the first mandatory `[0-9.]` character: the remaining input must
split as `[0-9.]* ([eEinumkKMGTP]*[-+]?[0-9]*)`. -/
def matchRest : List Char → Bool
  | [] => true
  | c :: rest => matchGroup2 (c :: rest) || (isDigitOrDot c && matchRest rest)

def matchQuantityChars (cs : List Char) : Bool :=
  match cs with
  | [] => false
  | c :: rest =>
    match (if isSign c then rest else c :: rest) with
    | [] => false
    | d :: tail => isDigitOrDot d && matchRest tail

/-- Whole-string match of `k8sQuantitiesReg`. -/
def matchQuantity (s : String) : Bool := matchQuantityChars s.data

/-! ### Go `time.Parse` with layout `2006-01-02 15:04:05` -/

structure GoTime where
  year : Nat
  month : Nat
  day : Nat
  hour : Nat
  minute : Nat
  second : Nat
  nsec : Nat
deriving Repr, DecidableEq

/-- The zero `time.Time` used when `start-time` is absent. -/
def zeroGoTime : GoTime := ⟨1, 1, 1, 0, 0, 0, 0⟩

def digitVal (c : Char) : Nat := c.toNat - 48

/-- Fixed two-digit field (`getnum` with `fixed = true`). -/
def getnum2 : List Char → Option (Nat × List Char)
  | c1 :: c2 :: rest =>
    if c1.isDigit && c2.isDigit then some (digitVal c1 * 10 + digitVal c2, rest) else none
  | _ => none

/-- Fixed four-digit year field (`getnum4`). -/
def getnum4 : List Char → Option (Nat × List Char)
  | c1 :: c2 :: c3 :: c4 :: rest =>
    if c1.isDigit && c2.isDigit && c3.isDigit && c4.isDigit then
      some (((digitVal c1 * 10 + digitVal c2) * 10 + digitVal c3) * 10 + digitVal c4, rest)
    else none
  | _ => none

/-- One-or-two-digit field (`getnum` with `fixed = false`, used for the
24-hour field `15`). -/
def getnumFlex : List Char → Option (Nat × List Char)
  | [] => none
  | [c1] => if c1.isDigit then some (digitVal c1, []) else none
  | c1 :: c2 :: rest =>
    if c1.isDigit then
      if c2.isDigit then some (digitVal c1 * 10 + digitVal c2, rest)
      else some (digitVal c1, c2 :: rest)
    else none

def expectChar (c : Char) : List Char → Option (List Char)
  | d :: rest => if d == c then some rest else none
  | [] => none

def takeDigits : List Char → List Char × List Char
  | [] => ([], [])
  | c :: rest =>
    if c.isDigit then
      let p := takeDigits rest
      (c :: p.1, p.2)
    else ([], c :: rest)

def natOfDigitsAux (acc : Nat) : List Char → Nat
  | [] => acc
  | c :: rest => natOfDigitsAux (acc * 10 + digitVal c) rest

/-- Nanoseconds from a fractional-digit run, as `parseNanoseconds` computes
them (at most nine digits are significant, longer runs are truncated). -/
def fracNanos (ds : List Char) : Nat :=
  natOfDigitsAux 0 (ds.take 9) * 10 ^ (9 - (ds.take 9).length)

/-- Optional fractional second after the seconds field: a comma or decimal
point followed by a maximal run of digits. -/
def parseFrac : List Char → Option (Nat × List Char)
  | c1 :: c2 :: rest =>
    if (c1 == '.' || c1 == ',') && c2.isDigit then
      let p := takeDigits (c2 :: rest)
      some (fracNanos p.1, p.2)
    else none
  | _ => none

def isLeapYear (y : Nat) : Bool := (y % 4 == 0 && y % 100 != 0) || y % 400 == 0

def daysIn (month year : Nat) : Nat :=
  if month == 2 then (if isLeapYear year then 29 else 28)
  else if month == 4 || month == 6 || month == 9 || month == 11 then 30
  else 31

/-- `time.Parse("2006-01-02 15:04:05", s)`, returning `none` on any parse or
range error. -/
def parseTimestamp (s : String) : Option GoTime :=
  match getnum4 s.data with
  | none => none
  | some (year, r1) =>
  match expectChar '-' r1 with
  | none => none
  | some r2 =>
  match getnum2 r2 with
  | none => none
  | some (month, r3) =>
  match expectChar '-' r3 with
  | none => none
  | some r4 =>
  match getnum2 r4 with
  | none => none
  | some (day, r5) =>
  match expectChar ' ' r5 with
  | none => none
  | some r6 =>
  match getnumFlex r6 with
  | none => none
  | some (hour, r7) =>
  match expectChar ':' r7 with
  | none => none
  | some r8 =>
  match getnum2 r8 with
  | none => none
  | some (minute, r9) =>
  match expectChar ':' r9 with
  | none => none
  | some r10 =>
  match getnum2 r10 with
  | none => none
  | some (second, r11) =>
  let fr := match parseFrac r11 with
    | some p => p
    | none => (0, r11)
  if !fr.2.isEmpty then none
  else if month < 1 || 12 < month then none
  else if day < 1 || daysIn month year < day then none
  else if 24 ≤ hour then none
  else if 60 ≤ minute then none
  else if 60 ≤ second then none
  else some ⟨year, month, day, hour, minute, second, fr.1⟩

/-- Strictly monotone linearization of a calendar tuple (valid field ranges
assumed, which both parsed times and the zero time satisfy). -/
def goTimeKey (t : GoTime) : Nat :=
  (((((t.year * 13 + t.month) * 32 + t.day) * 24 + t.hour) * 60 + t.minute) * 60 + t.second)
    * 1000000000 + t.nsec

/-- `a.After(b)` for two UTC times. -/
def goTimeAfter (a b : GoTime) : Bool := goTimeKey b < goTimeKey a

/-! ### Flags, validation and JobSpec construction

`policyRecommendationRunCmd.RunE` reads its flags, validates them one by one
(fail-fast), accumulates the Spark job argument list, and only after every
check passes generates an ID, builds the `SparkApplication` and POSTs it. -/

structure Flags where
  recoType : String
  limit : Int
  option : String
  startTime : String
  endTime : String
  nsAllowList : String
  rmLabels : Bool
  toServices : Bool
  executorInstances : Int
  driverCoreRequest : String
  driverMemory : String
  executorCoreRequest : String
  executorMemory : String
  waitFlag : Bool
  clickhouseEndpoint : String
  useClusterIP : Bool
  filePath : String
deriving Repr, DecidableEq

structure SparkResourceArgs where
  executorInstances : Int
  driverCoreRequest : String
  driverMemory : String
  executorCoreRequest : String
  executorMemory : String
deriving Repr, DecidableEq

def typeErrMsg : String := "recommendation type should be \x27initial\x27 or \x27subsequent\x27"

def limitErrMsg : String := "limit should be an integer >= 0"

def optionErrMsg : String :=
  "option of network isolation preference should be anp-deny-applied or anp-deny-all or k8s-np"

def startTimeErrMsg : String :=
  "parsing start-time: start-time should be in \x27YYYY-MM-DD hh:mm:ss\x27 format, for example: 2006-01-02 15:04:05"

def endTimeErrMsg : String :=
  "parsing end-time: end-time should be in \x27YYYY-MM-DD hh:mm:ss\x27 format, for example: 2006-01-02 15:04:05"

def endOrderErrMsg : String := "end-time should be after start-time"

def nsAllowListErrMsg : String :=
  "parsing ns-allow-list: ns-allow-list should be a list of namespace string"

def executorInstancesErrMsg : String := "executor-instances should be an integer >= 0"

def driverCoreErrMsg : String := "driver-core-request should conform to the Kubernetes convention"

def driverMemErrMsg : String := "driver-memory should conform to the Kubernetes convention"

def executorCoreErrMsg : String := "executor-core-request should conform to the Kubernetes convention"

def executorMemErrMsg : String := "executor-memory should conform to the Kubernetes convention"

/-- The option → numeric code if-chain of `RunE`. -/
def optionCode (option : String) : Option Nat :=
  if option == "anp-deny-applied" then some 1
  else if option == "anp-deny-all" then some 2
  else if option == "k8s-np" then some 3
  else none

/-- `strconv.FormatBool`. -/
def formatBool (b : Bool) : String := if b then "true" else "false"

/-- Lines 122-125: the recommendation-type check, starting the
`recoJobArgs` accumulation. -/
def checkType (f : Flags) : Except String (List String) :=
  if f.recoType != "initial" && f.recoType != "subsequent" then .error typeErrMsg
  else .ok ["--type", f.recoType]

/-- Lines 131-134: the limit check. -/
def checkLimit (f : Flags) (args : List String) : Except String (List String) :=
  if f.limit < 0 then .error limitErrMsg
  else .ok (args ++ ["--limit", toString f.limit])

/-- Lines 140-151: the option mapping. -/
def checkOption (f : Flags) (args : List String) : Except String (List String) :=
  match optionCode f.option with
  | none => .error optionErrMsg
  | some optionArg => .ok (args ++ ["--option", toString optionArg])

/-- Lines 157-165: `startTimeObj` stays the zero `time.Time` when the flag
is empty; otherwise the flag must parse and is appended. -/
def checkStartTime (f : Flags) (args : List String) : Except String (GoTime × List String) :=
  if f.startTime == "" then .ok (zeroGoTime, args)
  else
    match parseTimestamp f.startTime with
    | none => .error startTimeErrMsg
    | some t => .ok (t, args ++ ["--start_time", f.startTime])

/-- Lines 171-182: when the end flag is non-empty it must parse and be
strictly after `startTimeObj` (`endTimeObj.After(startTimeObj)`). -/
def checkEndTime (f : Flags) (startTimeObj : GoTime) (args : List String) : Except String (List String) :=
  if f.endTime == "" then .ok args
  else
    match parseTimestamp f.endTime with
    | none => .error endTimeErrMsg
    | some endTimeObj =>
      if goTimeAfter endTimeObj startTimeObj then .ok (args ++ ["--end_time", f.endTime])
      else .error endOrderErrMsg

/-- Lines 188-196: the allow-list must `json.Unmarshal` into a `[]string`
when non-empty; `jsonOk` abstracts that library call (only its success or
failure is used, the original string is what gets appended). -/
def checkNsAllowList (jsonOk : String → Bool) (f : Flags) (args : List String) : Except String (List String) :=
  if f.nsAllowList == "" then .ok args
  else if jsonOk f.nsAllowList then .ok (args ++ ["--ns_allow_list", f.nsAllowList])
  else .error nsAllowListErrMsg

/-- Lines 198-208: the two boolean toggles are appended unconditionally. -/
def appendToggles (f : Flags) (args : List String) : List String :=
  args ++ ["--rm_labels", formatBool f.rmLabels] ++ ["--to_services", formatBool f.toServices]

/-- Lines 210-257: executor-instance count and the four resource
quantities. -/
def checkResources (f : Flags) (args : List String) : Except String (List String × SparkResourceArgs) :=
  if f.executorInstances < 0 then .error executorInstancesErrMsg
  else if !matchQuantity f.driverCoreRequest then .error driverCoreErrMsg
  else if !matchQuantity f.driverMemory then .error driverMemErrMsg
  else if !matchQuantity f.executorCoreRequest then .error executorCoreErrMsg
  else if !matchQuantity f.executorMemory then .error executorMemErrMsg
  else .ok (args, ⟨f.executorInstances, f.driverCoreRequest, f.driverMemory,
                   f.executorCoreRequest, f.executorMemory⟩)

/-- The validation / argument-building prefix of `RunE` (lines 118-257): the
checks above in source order, fail-fast.  Returns the accumulated
`recoJobArgs` and the `SparkResourceArgs` on success, or the first failing
check\x27s error. -/
def validate (jsonOk : String → Bool) (f : Flags) : Except String (List String × SparkResourceArgs) :=
  match checkType f with
  | .error e => .error e
  | .ok args =>
  match checkLimit f args with
  | .error e => .error e
  | .ok args =>
  match checkOption f args with
  | .error e => .error e
  | .ok args =>
  match checkStartTime f args with
  | .error e => .error e
  | .ok (startTimeObj, args) =>
  match checkEndTime f startTimeObj args with
  | .error e => .error e
  | .ok args =>
  match checkNsAllowList jsonOk f args with
  | .error e => .error e
  | .ok args =>
  checkResources f (appendToggles f args)

/-- The `--start_time` entries `checkStartTime` contributes. -/
def startArgs (f : Flags) : List String :=
  if f.startTime == "" then [] else ["--start_time", f.startTime]

/-- The `--end_time` entries `checkEndTime` contributes. -/
def endArgs (f : Flags) : List String :=
  if f.endTime == "" then [] else ["--end_time", f.endTime]

/-- The `--ns_allow_list` entries `checkNsAllowList` contributes. -/
def nsArgs (f : Flags) : List String :=
  if f.nsAllowList == "" then [] else ["--ns_allow_list", f.nsAllowList]

/-- The fields of the constructed `sparkv1.SparkApplication` that the claims
are about. -/
structure SparkApplication where
  apiVersion : String
  kind : String
  name : String
  resNamespace : String
  appType : String
  appSparkVersion : String
  mode : String
  image : String
  imagePullPolicy : String
  mainApplicationFile : String
  arguments : List String
  serviceAccount : String
  driverCoreRequest : String
  driverMemory : String
  executorCoreRequest : String
  executorMemory : String
  executorInstances : Int
deriving Repr, DecidableEq

/-- Construction of `recommendationApplication` from the validated arguments
and the generated `recommendationID` (the ID is first appended to the
argument list as `--id <id>`, then used in the resource name). -/
def buildApp (args : List String) (sra : SparkResourceArgs) (id : String) : SparkApplication :=
  { apiVersion := "sparkoperator.k8s.io/v1beta2"
    kind := "SparkApplication"
    name := "policy-reco-" ++ id
    resNamespace := flowVisibilityNS
    appType := "Python"
    appSparkVersion := sparkVersion
    mode := "cluster"
    image := sparkImage
    imagePullPolicy := sparkImagePullPolicy
    mainApplicationFile := sparkAppFile
    arguments := args ++ ["--id", id]
    serviceAccount := sparkServiceAccount
    driverCoreRequest := sra.driverCoreRequest
    driverMemory := sra.driverMemory
    executorCoreRequest := sra.executorCoreRequest
    executorMemory := sra.executorMemory
    executorInstances := sra.executorInstances }

/-- Validation followed by spec construction with a given generated ID:
no `SparkApplication` exists when validation fails. -/
def buildForRequest (jsonOk : String → Bool) (f : Flags) (id : String) : Option SparkApplication :=
  match validate jsonOk f with
  | .error _ => none
  | .ok (args, sra) => some (buildApp args sra id)

/-! ### The status-polling loop

`wait.Poll(statusCheckPollInterval, statusCheckPollTimeout, cond)` where
`cond` queries `getPolicyRecommendationStatus` and classifies the returned
state.  A status query either reports a state string or fails; the scripted
sequence of query outcomes is a function of the query index.  The polling
budget is modelled as `statusCheckPollTimeout / statusCheckPollInterval`
condition calls; exhausting it yields the timeout outcome
(`wait.ErrWaitTimeout`), which is distinct from a condition error. -/

inductive QueryResult where
  | ok (state : String)
  | err (msg : String)
deriving Repr, DecidableEq

inductive PollOutcome where
  | success (queries : Nat)
  | condError (msg : String) (queries : Nat)
  | timeout (queries : Nat)
deriving Repr, DecidableEq

def isFailureState (s : String) : Bool :=
  s == "FAILED" || s == "SUBMISSION_FAILED" || s == "FAILING" || s == "INVALIDATING"

def jobFailedMsg (state : String) : String :=
  "policy recommendation job failed, state: " ++ state

/-- The `wait.Poll` condition callback (lines 352-365 of the source file):
a query error aborts with that error; `COMPLETED` is done; the four failure
states abort with `jobFailedMsg`; anything else continues. -/
def pollCondition (q : QueryResult) : Except String Bool :=
  match q with
  | .err e => .error e
  | .ok state =>
    if state == "COMPLETED" then .ok true
    else if isFailureState state then .error (jobFailedMsg state)
    else .ok false

/-- A query outcome on which the loop keeps polling. -/
def isNonTerminal (q : QueryResult) : Bool :=
  match q with
  | .ok s => !(s == "COMPLETED") && !isFailureState s
  | .err _ => false

def pollLoop (script : Nat → QueryResult) : Nat → Nat → PollOutcome
  | 0, q => .timeout q
  | fuel + 1, q =>
    match pollCondition (script q) with
    | .error e => .condError e (q + 1)
    | .ok true => .success (q + 1)
    | .ok false => pollLoop script fuel (q + 1)

/-- Number of condition calls within the timeout budget: `3600 / 5 = 720`. -/
def maxPollCount : Nat := statusCheckPollTimeout / statusCheckPollInterval

def runPoll (script : Nat → QueryResult) : PollOutcome := pollLoop script maxPollCount 0

/-- `wait.ErrWaitTimeout`. -/
def waitTimeoutMsg : String := "timed out waiting for the condition"

/-! ### The full `RunE` pipeline

External collaborators are abstracted as an environment: the kubeconfig
resolution, client creation and `PolicyRecoPreCheck` (their error, if any),
the control-plane POST response, the status-query script,
`url.ParseRequestURI` success, the `CheckClickHousePod` readiness error, and
the `getPolicyRecommendationResult` outcome.  The observable calls the
command makes (the POST of the spec, printing) are recorded as a trace of
effects, so that "nothing was submitted / printed" is a statement about the
trace. -/

structure Env where
  jsonOk : String → Bool
  kubeconfigErr : Option String
  clientErr : Option String
  preCheckErr : Option String
  submitErr : Option String
  script : Nat → QueryResult
  urlOk : String → Bool
  chPodErr : Option String
  fetchResult : Except String String

inductive Effect where
  | submit (app : SparkApplication)
  | printResult (s : String)
  | printCreated (id : String)
deriving Repr, DecidableEq

def endpointErrMsg (endpoint : String) : String :=
  "failed to decode input endpoint " ++ endpoint ++ " into a url"

def clientErrMsg (e : String) : String :=
  "couldn't create k8s client using given kubeconfig, " ++ e

/-- The post-poll phase (lines 370-399 of the source file): endpoint URL
check (skipped when the endpoint flag is empty), ClickHouse pod readiness
check, result retrieval, and printing of a non-empty result. -/
def resultPhase (env : Env) (f : Flags) : List Effect × Option String :=
  if f.clickhouseEndpoint != "" && !env.urlOk f.clickhouseEndpoint then
    ([], some (endpointErrMsg f.clickhouseEndpoint))
  else
    match env.chPodErr with
    | some e => ([], some e)
    | none =>
      match env.fetchResult with
      | .error e => ([], some e)
      | .ok recoResult =>
        if recoResult != "" then ([.printResult recoResult], none) else ([], none)

/-- The whole of `RunE`, with the generated `recommendationID` passed in as
`id`.  Returns the effect trace and the error the command returns (`none`
means a `nil` return, i.e. exit success). -/
def runE (env : Env) (f : Flags) (id : String) : List Effect × Option String :=
  match validate env.jsonOk f with
  | .error e => ([], some e)
  | .ok (args, sra) =>
    match env.kubeconfigErr with
    | some e => ([], some e)
    | none =>
    match env.clientErr with
    | some e => ([], some (clientErrMsg e))
    | none =>
    match env.preCheckErr with
    | some e => ([], some e)
    | none =>
      let app := buildApp args sra id
      match env.submitErr with
      | some e => ([.submit app], some e)
      | none =>
        if f.waitFlag then
          match runPoll env.script with
          | .success _ =>
            let p := resultPhase env f
            (.submit app :: p.1, p.2)
          | .condError e _ => ([.submit app], some e)
          | .timeout _ => ([.submit app], some waitTimeoutMsg)
        else
          ([.submit app, .printCreated id], none)

/-! ### Concrete instances used by witnesses -/

/-- The flag default values declared in `init()`. -/
def defaultFlags : Flags :=
  { recoType := "initial"
    limit := 0
    option := "anp-deny-applied"
    startTime := ""
    endTime := ""
    nsAllowList := ""
    rmLabels := true
    toServices := true
    executorInstances := 1
    driverCoreRequest := "200m"
    driverMemory := "512M"
    executorCoreRequest := "200m"
    executorMemory := "512M"
    waitFlag := false
    clickhouseEndpoint := ""
    useClusterIP := false
    filePath := "" }

/-- An environment in which every external collaborator behaves. -/
def benignEnv : Env :=
  { jsonOk := fun _ => false
    kubeconfigErr := none
    clientErr := none
    preCheckErr := none
    submitErr := none
    script := fun _ => .ok "COMPLETED"
    urlOk := fun _ => false
    chPodErr := none
    fetchResult := .ok "" }

def exceptIsOk {ε α : Type} : Except ε α → Bool
  | .ok _ => true
  | .error _ => false

/-- The spec\x27s example script `[RUNNING, RUNNING, COMPLETED]`. -/
def scriptSucceeds : Nat → QueryResult :=
  fun k => if k < 2 then .ok "RUNNING" else .ok "COMPLETED"

/-- The spec\x27s example script `[RUNNING, FAILED]`. -/
def scriptFails : Nat → QueryResult :=
  fun k => if k = 0 then .ok "RUNNING" else .ok "FAILED"

/-- An unbroken stream of `RUNNING`. -/
def scriptRuns : Nat → QueryResult := fun _ => .ok "RUNNING"

/-- A script whose fourth status query itself fails. -/
def scriptQueryError : Nat → QueryResult :=
  fun k => if k = 3 then .err "boom" else .ok "RUNNING"

/-- The timestamp grammar exactly as the spec words it: `YYYY-MM-DD hh:mm:ss`,
four digits, dash, two digits, dash, two digits, space, two digits, colon,
two digits, colon, two digits — nothing more.  (Stated from the spec, for
comparison with the parser the code actually uses.) -/
def specTimestampGrammar (s : String) : Bool :=
  match s.data with
  | [y1, y2, y3, y4, d1, mo1, mo2, d2, dy1, dy2, sp, h1, h2, c1, mi1, mi2, c2, s1, s2] =>
    y1.isDigit && y2.isDigit && y3.isDigit && y4.isDigit && d1 == '-' &&
    mo1.isDigit && mo2.isDigit && d2 == '-' && dy1.isDigit && dy2.isDigit &&
    sp == ' ' && h1.isDigit && h2.isDigit && c1 == ':' && mi1.isDigit &&
    mi2.isDigit && c2 == ':' && s1.isDigit && s2.isDigit
  | _ => false

/-! ## Helper lemmas -/

theorem checkType_ok {f : Flags} {args : List String} (h : checkType f = .ok args) :
    args = ["--type", f.recoType] := by
  unfold checkType at h
  split at h
  · cases h
  · cases h; rfl

theorem checkLimit_ok {f : Flags} {a args : List String} (h : checkLimit f a = .ok args) :
    args = a ++ ["--limit", toString f.limit] ∧ 0 ≤ f.limit := by
  unfold checkLimit at h
  split at h
  · cases h
  · cases h; exact ⟨rfl, by omega⟩

theorem checkOption_ok {f : Flags} {a args : List String} (h : checkOption f a = .ok args) :
    ∃ c, optionCode f.option = some c ∧ args = a ++ ["--option", toString c] := by
  unfold checkOption at h
  split at h
  · cases h
  · next c heq => cases h; exact ⟨c, heq, rfl⟩

theorem checkStartTime_ok {f : Flags} {a args : List String} {t : GoTime}
    (h : checkStartTime f a = .ok (t, args)) :
    args = a ++ startArgs f := by
  unfold checkStartTime at h
  split at h
  · cases h; simp [startArgs, *]
  · split at h
    · cases h
    · cases h; simp [startArgs, *]

theorem checkEndTime_ok {f : Flags} {t : GoTime} {a args : List String}
    (h : checkEndTime f t a = .ok args) :
    args = a ++ endArgs f := by
  unfold checkEndTime at h
  split at h
  · cases h; simp [endArgs, *]
  · split at h
    · cases h
    · split at h
      · cases h; simp [endArgs, *]
      · cases h

theorem checkNsAllowList_ok {jsonOk : String → Bool} {f : Flags} {a args : List String}
    (h : checkNsAllowList jsonOk f a = .ok args) :
    args = a ++ nsArgs f := by
  unfold checkNsAllowList at h
  split at h
  · cases h; simp [nsArgs, *]
  · split at h
    · cases h; simp [nsArgs, *]
    · cases h

theorem checkResources_ok {f : Flags} {a args : List String} {sra : SparkResourceArgs}
    (h : checkResources f a = .ok (args, sra)) :
    args = a ∧
    sra = ⟨f.executorInstances, f.driverCoreRequest, f.driverMemory,
           f.executorCoreRequest, f.executorMemory⟩ ∧
    0 ≤ f.executorInstances ∧
    matchQuantity f.driverCoreRequest = true ∧ matchQuantity f.driverMemory = true ∧
    matchQuantity f.executorCoreRequest = true ∧ matchQuantity f.executorMemory = true := by
  unfold checkResources at h
  split at h
  · cases h
  · split at h
    · cases h
    · split at h
      · cases h
      · split at h
        · cases h
        · split at h
          · cases h
          · cases h
            refine ⟨rfl, rfl, by omega, ?_, ?_, ?_, ?_⟩ <;> simp_all

/-- Complete description of a successful validation: the argument list it
returns and the facts it has checked. -/
theorem validate_ok_form {jsonOk : String → Bool} {f : Flags} {args : List String}
    {sra : SparkResourceArgs} (h : validate jsonOk f = .ok (args, sra)) :
    ∃ c, optionCode f.option = some c ∧
      args = ["--type", f.recoType, "--limit", toString f.limit, "--option", toString c]
        ++ startArgs f ++ endArgs f ++ nsArgs f
        ++ ["--rm_labels", formatBool f.rmLabels, "--to_services", formatBool f.toServices] ∧
      sra = ⟨f.executorInstances, f.driverCoreRequest, f.driverMemory,
             f.executorCoreRequest, f.executorMemory⟩ ∧
      matchQuantity f.driverCoreRequest = true ∧ matchQuantity f.driverMemory = true ∧
      matchQuantity f.executorCoreRequest = true ∧ matchQuantity f.executorMemory = true := by
  unfold validate at h
  split at h
  · cases h
  next a1 h1 =>
  split at h
  · cases h
  next a2 h2 =>
  split at h
  · cases h
  next a3 h3 =>
  split at h
  · cases h
  next t a4 h4 =>
  split at h
  · cases h
  next a5 h5 =>
  split at h
  · cases h
  next a6 h6 =>
  obtain ⟨ha, hsra, hei, q1, q2, q3, q4⟩ := checkResources_ok h
  have e1 := checkType_ok h1
  have e2 := (checkLimit_ok h2).1
  obtain ⟨c, hc, e3⟩ := checkOption_ok h3
  have e4 := checkStartTime_ok h4
  have e5 := checkEndTime_ok h5
  have e6 := checkNsAllowList_ok h6
  subst e1 e2 e3 e4 e5 e6 ha
  exact ⟨c, hc, by simp [appendToggles], hsra, q1, q2, q3, q4⟩

theorem checkType_eval {f : Flags} (h : f.recoType = "initial" ∨ f.recoType = "subsequent") :
    checkType f = .ok ["--type", f.recoType] := by
  rcases h with h | h <;> simp [checkType, h]

theorem checkLimit_eval {f : Flags} (a : List String) (h : 0 ≤ f.limit) :
    checkLimit f a = .ok (a ++ ["--limit", toString f.limit]) := by
  have hnl : ¬f.limit < 0 := by omega
  simp [checkLimit, hnl]

theorem checkOption_eval {f : Flags} (a : List String) {c : Nat}
    (h : optionCode f.option = some c) :
    checkOption f a = .ok (a ++ ["--option", toString c]) := by
  simp [checkOption, h]

theorem checkStartTime_eval_empty {f : Flags} (a : List String) (h : f.startTime = "") :
    checkStartTime f a = .ok (zeroGoTime, a) := by
  simp [checkStartTime, h]

theorem checkStartTime_eval_parse {f : Flags} (a : List String) {t : GoTime}
    (hne : f.startTime ≠ "") (h : parseTimestamp f.startTime = some t) :
    checkStartTime f a = .ok (t, a ++ ["--start_time", f.startTime]) := by
  simp [checkStartTime, hne, h]

theorem checkEndTime_eval_empty {f : Flags} (t : GoTime) (a : List String) (h : f.endTime = "") :
    checkEndTime f t a = .ok a := by
  simp [checkEndTime, h]

theorem checkEndTime_eval_parse {f : Flags} {t te : GoTime} (a : List String)
    (hne : f.endTime ≠ "") (h : parseTimestamp f.endTime = some te)
    (haft : goTimeAfter te t = true) :
    checkEndTime f t a = .ok (a ++ ["--end_time", f.endTime]) := by
  simp [checkEndTime, hne, h, haft]

theorem checkNsAllowList_eval_empty {jsonOk : String → Bool} {f : Flags} (a : List String)
    (h : f.nsAllowList = "") : checkNsAllowList jsonOk f a = .ok a := by
  simp [checkNsAllowList, h]

/-- Under hypotheses making every check before the resource checks pass,
validation reduces to the resource checks (whose outcome does not depend on
the accumulated argument list). -/
theorem validate_eq_resources {jsonOk : String → Bool} {f : Flags} {c : Nat} {t : GoTime}
    (h1 : f.recoType = "initial" ∨ f.recoType = "subsequent") (h2 : 0 ≤ f.limit)
    (h3 : optionCode f.option = some c)
    (h4 : ∀ a, checkStartTime f a = .ok (t, a ++ startArgs f))
    (h5 : ∀ a, checkEndTime f t a = .ok (a ++ endArgs f))
    (h6 : ∀ a, checkNsAllowList jsonOk f a = .ok (a ++ nsArgs f)) :
    ∃ a, validate jsonOk f = checkResources f a := by
  refine ⟨appendToggles f (["--type", f.recoType] ++ ["--limit", toString f.limit]
    ++ ["--option", toString c] ++ startArgs f ++ endArgs f ++ nsArgs f), ?_⟩
  simp [validate, checkType_eval h1, checkLimit_eval _ h2, checkOption_eval _ h3, h4, h5, h6,
        appendToggles]

theorem checkResources_err_executor {f : Flags} (a : List String)
    (h : f.executorInstances < 0) :
    checkResources f a = .error executorInstancesErrMsg := by
  simp [checkResources, h]

theorem checkResources_err_dcr {f : Flags} (a : List String) (hei : 0 ≤ f.executorInstances)
    (h : matchQuantity f.driverCoreRequest = false) :
    checkResources f a = .error driverCoreErrMsg := by
  have hnl : ¬f.executorInstances < 0 := by omega
  simp [checkResources, hnl, h]

theorem checkResources_err_dm {f : Flags} (a : List String) (hei : 0 ≤ f.executorInstances)
    (h1 : matchQuantity f.driverCoreRequest = true)
    (h : matchQuantity f.driverMemory = false) :
    checkResources f a = .error driverMemErrMsg := by
  have hnl : ¬f.executorInstances < 0 := by omega
  simp [checkResources, hnl, h1, h]

theorem checkResources_err_ecr {f : Flags} (a : List String) (hei : 0 ≤ f.executorInstances)
    (h1 : matchQuantity f.driverCoreRequest = true)
    (h2 : matchQuantity f.driverMemory = true)
    (h : matchQuantity f.executorCoreRequest = false) :
    checkResources f a = .error executorCoreErrMsg := by
  have hnl : ¬f.executorInstances < 0 := by omega
  simp [checkResources, hnl, h1, h2, h]

theorem checkResources_err_em {f : Flags} (a : List String) (hei : 0 ≤ f.executorInstances)
    (h1 : matchQuantity f.driverCoreRequest = true)
    (h2 : matchQuantity f.driverMemory = true)
    (h3 : matchQuantity f.executorCoreRequest = true)
    (h : matchQuantity f.executorMemory = false) :
    checkResources f a = .error executorMemErrMsg := by
  have hnl : ¬f.executorInstances < 0 := by omega
  simp [checkResources, hnl, h1, h2, h3, h]

/-- With empty optional flags, the start/end/ns steps pass without
contributing arguments, so validation reduces to the resource checks. -/
theorem validate_eq_resources_simple {jsonOk : String → Bool} {f : Flags} {c : Nat}
    (h1 : f.recoType = "initial" ∨ f.recoType = "subsequent") (h2 : 0 ≤ f.limit)
    (h3 : optionCode f.option = some c) (h4 : f.startTime = "") (h5 : f.endTime = "")
    (h6 : f.nsAllowList = "") : ∃ a, validate jsonOk f = checkResources f a := by
  refine @validate_eq_resources jsonOk f c zeroGoTime h1 h2 h3 (fun a => ?_) (fun a => ?_)
    (fun a => ?_)
  · rw [checkStartTime_eval_empty a h4]
    simp [startArgs, h4]
  · rw [checkEndTime_eval_empty _ a h5]
    simp [endArgs, h5]
  · rw [checkNsAllowList_eval_empty a h6]
    simp [nsArgs, h6]

theorem isSign_false_of_digitOrDot {c : Char} (h : isDigitOrDot c = true) : isSign c = false := by
  cases hp : c == '+' with
  | true =>
    have hc : c = '+' := by simpa using hp
    subst hc
    exact absurd h (by decide)
  | false =>
    cases hm : c == '-' with
    | true =>
      have hc : c = '-' := by simpa using hm
      subst hc
      exact absurd h (by decide)
    | false => simp [isSign, hp, hm]

theorem matchRest_of_digitsDots : ∀ (cs : List Char), cs.all isDigitOrDot = true →
    matchRest cs = true := by
  intro cs hall
  induction cs with
  | nil => rfl
  | cons c rest ih =>
    rw [List.all_cons, Bool.and_eq_true] at hall
    simp [matchRest, hall.1, ih hall.2]

theorem string_append_cancel_left {a b c : String} (h : a ++ b = a ++ c) : b = c := by
  cases a with
  | mk la =>
  cases b with
  | mk lb =>
  cases c with
  | mk lc =>
  have hd : la ++ lb = la ++ lc := congrArg String.data h
  exact congrArg String.mk (List.append_cancel_left hd)

theorem pollCondition_of_nonTerminal {q : QueryResult} (h : isNonTerminal q = true) :
    pollCondition q = .ok false := by
  cases q with
  | err m => simp [isNonTerminal] at h
  | ok s =>
    simp only [isNonTerminal, Bool.and_eq_true, Bool.not_eq_true'] at h
    simp [pollCondition, h.1, h.2]

/-- A run of non-terminal query outcomes advances the loop without changing
its result. -/
theorem pollLoop_skip (script : Nat → QueryResult) :
    ∀ (n fuel q : Nat), (∀ k, k < n → isNonTerminal (script (q + k)) = true) →
      pollLoop script (n + fuel) q = pollLoop script fuel (q + n) := by
  intro n
  induction n with
  | zero => intro fuel q _; simp
  | succ m ih =>
    intro fuel q h
    have h0 : isNonTerminal (script q) = true := by simpa using h 0 (Nat.succ_pos m)
    have e1 : m + 1 + fuel = m + fuel + 1 := by omega
    have hstep : pollLoop script (m + fuel + 1) q = pollLoop script (m + fuel) (q + 1) := by
      simp [pollLoop, pollCondition_of_nonTerminal h0]
    have hrest := ih fuel (q + 1) (fun k hk => by
      have hh := h (k + 1) (by omega)
      have e : q + (k + 1) = q + 1 + k := by omega
      rwa [e] at hh)
    rw [e1, hstep, hrest]
    congr 1
    omega

/-- If the first `n` queries are non-terminal and the budget is not yet
exhausted, the loop reaches query `n`. -/
theorem runPoll_reaches (script : Nat → QueryResult) (n : Nat)
    (hpre : ∀ k, k < n → isNonTerminal (script k) = true) (hlt : n < maxPollCount) :
    ∃ m, runPoll script = pollLoop script (m + 1) n := by
  refine ⟨maxPollCount - n - 1, ?_⟩
  have hdec : maxPollCount = n + (maxPollCount - n - 1 + 1) := by omega
  have hskip := pollLoop_skip script n (maxPollCount - n - 1 + 1) 0
    (fun k hk => by simpa using hpre k hk)
  rw [runPoll, hdec, hskip]
  simp

/-! ## Claims -/

/-- C1 (Poller determinism): for every scripted sequence of states returned
by successive status queries, the loop (queried at the fixed interval, with
the fixed timeout budget) terminates in success at the first `COMPLETED`
state; terminates at the first state among `FAILED`, `SUBMISSION_FAILED`,
`FAILING`, `INVALIDATING` with an error reporting the observed state; treats
every other state as non-terminal and continues; and on an unbroken stream
of non-terminal states it exhausts the budget and ends in the timeout
outcome, which is not a failure-state error. -/
theorem c1_poller_determinism :
    (∀ (script : Nat → QueryResult) (n : Nat),
        (∀ k, k < n → isNonTerminal (script k) = true) → n < maxPollCount →
        ((script n = .ok "COMPLETED" → runPoll script = .success (n + 1)) ∧
         (∀ s, isFailureState s = true → script n = .ok s →
            runPoll script = .condError (jobFailedMsg s) (n + 1)))) ∧
    (∀ script : Nat → QueryResult,
        (∀ k, k < maxPollCount → isNonTerminal (script k) = true) →
        runPoll script = .timeout maxPollCount ∧
        (∀ e q, runPoll script ≠ .condError e q)) := by
  constructor
  · intro script n hpre hlt
    obtain ⟨m, hm⟩ := runPoll_reaches script n hpre hlt
    constructor
    · intro hc
      rw [hm]
      simp [pollLoop, hc, pollCondition]
    · intro s hfs hsc
      have hnc : (s == "COMPLETED") = false := by
        cases hb : s == "COMPLETED" with
        | false => rfl
        | true =>
          have hs : s = "COMPLETED" := by simpa using hb
          subst hs
          simp [isFailureState] at hfs
      rw [hm]
      simp [pollLoop, hsc, pollCondition, hnc, hfs]
  · intro script hall
    have ht : runPoll script = .timeout maxPollCount := by
      have hskip := pollLoop_skip script maxPollCount 0 0 (fun k hk => by simpa using hall k hk)
      rw [Nat.add_zero] at hskip
      rw [runPoll, hskip, Nat.zero_add]
      simp [pollLoop]
    exact ⟨ht, fun e q h => by rw [ht] at h; cases h⟩

/-- Witness for C1 at the spec\x27s example scripts. -/
theorem c1_poller_determinism_witness :
    runPoll scriptSucceeds = .success 3 ∧
    runPoll scriptFails = .condError (jobFailedMsg "FAILED") 2 ∧
    runPoll scriptRuns = .timeout maxPollCount := by
  refine ⟨?_, ?_, ?_⟩
  · exact (c1_poller_determinism.1 scriptSucceeds 2
      (by intro k hk
          have hk2 : k = 0 ∨ k = 1 := by omega
          rcases hk2 with h | h <;> subst h <;> decide)
      (by decide)).1 (by decide)
  · exact (c1_poller_determinism.1 scriptFails 1
      (by intro k hk
          have hk1 : k = 0 := by omega
          subst hk1; decide)
      (by decide)).2 "FAILED" (by decide) (by decide)
  · exact ((c1_poller_determinism.2 scriptRuns) (by intro k hk; rfl)).1

/-- C9 (query errors abort the poll): if the status query at index `n`
itself returns an error — the earlier queries reporting non-terminal
states — the loop aborts right there, after `n + 1` queries, and propagates
exactly that error; it is never treated as one more non-terminal state. -/
theorem c9_query_error_aborts (script : Nat → QueryResult) (n : Nat) (e : String)
    (hpre : ∀ k, k < n → isNonTerminal (script k) = true) (hlt : n < maxPollCount)
    (herr : script n = .err e) : runPoll script = .condError e (n + 1) := by
  obtain ⟨m, hm⟩ := runPoll_reaches script n hpre hlt
  rw [hm]
  simp [pollLoop, herr, pollCondition]

/-- Witness for C9: a query error at the fourth query aborts after four
queries with that very error. -/
theorem c9_query_error_aborts_witness :
    runPoll scriptQueryError = .condError "boom" 4 :=
  c9_query_error_aborts scriptQueryError 3 "boom"
    (by intro k hk
        have hk3 : k = 0 ∨ k = 1 ∨ k = 2 := by omega
        rcases hk3 with h | h | h <;> subst h <;> decide)
    (by decide) (by decide)

/-- C2 (fail-fast validation, no side effects): whenever validation fails,
`RunE` returns that error with an empty effect trace — no `SparkApplication`
is submitted and nothing is printed; representative malformed inputs
(`limit = -1`, `option = "bogus"`, end-time not after start-time, a
malformed resource quantity) each fail with their check\x27s own message; and
an input failing two checks reports the first one (fail-fast). -/
theorem c2_validation_failfast_no_submission :
    (∀ (env : Env) (f : Flags) (id e : String),
        validate env.jsonOk f = .error e → runE env f id = ([], some e)) ∧
    (∀ jsonOk : String → Bool,
        validate jsonOk { defaultFlags with limit := -1 } = .error limitErrMsg) ∧
    (∀ jsonOk : String → Bool,
        validate jsonOk { defaultFlags with option := "bogus" } = .error optionErrMsg) ∧
    (∀ jsonOk : String → Bool,
        validate jsonOk { defaultFlags with startTime := "2022-01-01 00:00:00", endTime := "2022-01-01 00:00:00" } = .error endOrderErrMsg) ∧
    (∀ jsonOk : String → Bool,
        validate jsonOk { defaultFlags with driverMemory := "1BB" } = .error driverMemErrMsg) ∧
    (∀ jsonOk : String → Bool,
        validate jsonOk { defaultFlags with limit := -1, option := "bogus" } = .error limitErrMsg) := by
  refine ⟨?_, fun _ => rfl, fun _ => rfl, fun _ => rfl, fun _ => rfl, fun _ => rfl⟩
  intro env f id e h
  simp [runE, h]

/-- Witness for C2: the malformed `limit = -1` invocation returns the limit
error with an empty effect trace. -/
theorem c2_validation_failfast_no_submission_witness :
    runE benignEnv { defaultFlags with limit := -1 } "id" = ([], some limitErrMsg) :=
  c2_validation_failfast_no_submission.1 benignEnv { defaultFlags with limit := -1 } "id"
    limitErrMsg (c2_validation_failfast_no_submission.2.1 benignEnv.jsonOk)

/-- C3 (option mapping): `anp-deny-applied`, `anp-deny-all` and `k8s-np` map
to the numeric codes 1, 2 and 3; the code is encoded into the built
job\x27s argument list as `--option <code>`; and, once the earlier
type and limit checks pass, any option value outside this fixed vocabulary
makes validation fail with the option error. -/
theorem c3_option_mapping :
    (optionCode "anp-deny-applied" = some 1 ∧ optionCode "anp-deny-all" = some 2 ∧
     optionCode "k8s-np" = some 3) ∧
    (∀ (jsonOk : String → Bool) (f : Flags) (id : String) (app : SparkApplication) (c : Nat),
        buildForRequest jsonOk f id = some app → optionCode f.option = some c →
        ∃ l r, app.arguments = l ++ "--option" :: toString c :: r) ∧
    (∀ (jsonOk : String → Bool) (f : Flags),
        (f.recoType = "initial" ∨ f.recoType = "subsequent") → 0 ≤ f.limit →
        f.option ≠ "anp-deny-applied" → f.option ≠ "anp-deny-all" → f.option ≠ "k8s-np" →
        validate jsonOk f = .error optionErrMsg) := by
  refine ⟨⟨rfl, rfl, rfl⟩, ?_, ?_⟩
  · intro jsonOk f id app c h hc
    unfold buildForRequest at h
    split at h
    · cases h
    · next args sra hv =>
      cases h
      obtain ⟨c2, hc2, hargs, _⟩ := validate_ok_form hv
      rw [hc] at hc2
      cases hc2
      refine ⟨["--type", f.recoType, "--limit", toString f.limit],
        startArgs f ++ endArgs f ++ nsArgs f
          ++ ["--rm_labels", formatBool f.rmLabels, "--to_services", formatBool f.toServices]
          ++ ["--id", id], ?_⟩
      simp [buildApp, hargs]
  · intro jsonOk f htype hlimit h1 h2 h3
    have hco : optionCode f.option = none := by simp [optionCode, h1, h2, h3]
    simp [validate, checkType_eval htype, checkLimit_eval _ hlimit, checkOption, hco]

/-- Witness for C3: the out-of-vocabulary option value `bogus` is rejected
with the option error. -/
theorem c3_option_mapping_witness :
    validate (fun _ => false) { defaultFlags with option := "bogus" } = .error optionErrMsg :=
  c3_option_mapping.2.2 (fun _ => false) { defaultFlags with option := "bogus" }
    (Or.inl rfl) (by decide) (by decide) (by decide) (by decide)

/-- C4 counterexample: the code\x27s timestamp parser (Go\x27s `time.Parse`
with the reference layout) also accepts a fractional-second suffix, which the
literal `YYYY-MM-DD hh:mm:ss` grammar does not: the end-time
`2022-01-01 00:00:00.5` is outside that grammar, yet it parses (to half a
second past midnight) and the whole validation succeeds. -/
theorem c4_time_grammar_counterexample :
    specTimestampGrammar "2022-01-01 00:00:00.5" = false ∧
    parseTimestamp "2022-01-01 00:00:00.5" = some ⟨2022, 1, 1, 0, 0, 0, 500000000⟩ ∧
    exceptIsOk (validate (fun _ => false)
      { defaultFlags with endTime := "2022-01-01 00:00:00.5" }) = true :=
  ⟨rfl, rfl, rfl⟩

/-- C4 (amended): each of start-time and end-time, when present, must be
accepted by the code\x27s timestamp parser (the reference layout
`2006-01-02 15:04:05`, which matches `YYYY-MM-DD hh:mm:ss` and additionally
tolerates an optional fractional-second suffix and an unpadded hour) or
validation fails with that flag\x27s parse error; when both are present,
validation fails unless end is strictly after start — `After` is
irreflexive, so an end equal to the start is rejected. -/
theorem c4_time_validation :
    (∀ (jsonOk : String → Bool) (f : Flags) (c : Nat),
        (f.recoType = "initial" ∨ f.recoType = "subsequent") → 0 ≤ f.limit →
        optionCode f.option = some c →
        f.startTime ≠ "" → parseTimestamp f.startTime = none →
        validate jsonOk f = .error startTimeErrMsg) ∧
    (∀ (jsonOk : String → Bool) (f : Flags) (c : Nat),
        (f.recoType = "initial" ∨ f.recoType = "subsequent") → 0 ≤ f.limit →
        optionCode f.option = some c →
        f.startTime = "" → f.endTime ≠ "" → parseTimestamp f.endTime = none →
        validate jsonOk f = .error endTimeErrMsg) ∧
    (∀ (jsonOk : String → Bool) (f : Flags) (c : Nat) (ts : GoTime),
        (f.recoType = "initial" ∨ f.recoType = "subsequent") → 0 ≤ f.limit →
        optionCode f.option = some c →
        f.startTime ≠ "" → parseTimestamp f.startTime = some ts →
        f.endTime ≠ "" → parseTimestamp f.endTime = none →
        validate jsonOk f = .error endTimeErrMsg) ∧
    (∀ (jsonOk : String → Bool) (f : Flags) (c : Nat) (ts te : GoTime),
        (f.recoType = "initial" ∨ f.recoType = "subsequent") → 0 ≤ f.limit →
        optionCode f.option = some c →
        f.startTime ≠ "" → parseTimestamp f.startTime = some ts →
        f.endTime ≠ "" → parseTimestamp f.endTime = some te →
        goTimeAfter te ts = false →
        validate jsonOk f = .error endOrderErrMsg) ∧
    (∀ t : GoTime, goTimeAfter t t = false) ∧
    (∀ jsonOk : String → Bool,
        validate jsonOk { defaultFlags with startTime := "2022-01-01 00:00:00", endTime := "2022-01-01 00:00:00" } = .error endOrderErrMsg) := by
  refine ⟨?_, ?_, ?_, ?_, ?_, fun _ => rfl⟩
  · intro jsonOk f c h1 h2 h3 hne hp
    simp [validate, checkType_eval h1, checkLimit_eval _ h2, checkOption_eval _ h3,
          checkStartTime, hne, hp]
  · intro jsonOk f c h1 h2 h3 hse hene hep
    simp [validate, checkType_eval h1, checkLimit_eval _ h2, checkOption_eval _ h3,
          checkStartTime_eval_empty _ hse, checkEndTime, hene, hep]
  · intro jsonOk f c ts h1 h2 h3 hsne hsp hene hep
    simp [validate, checkType_eval h1, checkLimit_eval _ h2, checkOption_eval _ h3,
          checkStartTime_eval_parse _ hsne hsp, checkEndTime, hene, hep]
  · intro jsonOk f c ts te h1 h2 h3 hsne hsp hene hep haft
    simp [validate, checkType_eval h1, checkLimit_eval _ h2, checkOption_eval _ h3,
          checkStartTime_eval_parse _ hsne hsp, checkEndTime, hene, hep, haft]
  · intro t
    simp [goTimeAfter]

/-- Witness for C4: an unparsable start-time fails with the start-time parse
error. -/
theorem c4_time_validation_witness :
    validate (fun _ => false) { defaultFlags with startTime := "not-a-time" } = .error startTimeErrMsg :=
  c4_time_validation.1 (fun _ => false) { defaultFlags with startTime := "not-a-time" } 1
    (Or.inl rfl) (by decide) rfl (by decide) rfl

/-- C5 (resource-quantity grammar): a successful validation implies all four
resource-quantity strings match the quantity regular expression; once every
earlier check passes, a non-matching string in any of the four fields fails
validation with that field\x27s quantity-format error; in particular `1BB`
does not match and fails, while `500m` matches and passes. -/
theorem c5_quantity_grammar :
    (∀ (jsonOk : String → Bool) (f : Flags) (args : List String) (sra : SparkResourceArgs),
        validate jsonOk f = .ok (args, sra) →
        matchQuantity f.driverCoreRequest = true ∧ matchQuantity f.driverMemory = true ∧
        matchQuantity f.executorCoreRequest = true ∧ matchQuantity f.executorMemory = true) ∧
    (∀ (jsonOk : String → Bool) (f : Flags) (c : Nat),
        (f.recoType = "initial" ∨ f.recoType = "subsequent") → 0 ≤ f.limit →
        optionCode f.option = some c →
        f.startTime = "" → f.endTime = "" → f.nsAllowList = "" →
        0 ≤ f.executorInstances →
        ((matchQuantity f.driverCoreRequest = false →
            validate jsonOk f = .error driverCoreErrMsg) ∧
         (matchQuantity f.driverCoreRequest = true →
          matchQuantity f.driverMemory = false →
            validate jsonOk f = .error driverMemErrMsg) ∧
         (matchQuantity f.driverCoreRequest = true →
          matchQuantity f.driverMemory = true →
          matchQuantity f.executorCoreRequest = false →
            validate jsonOk f = .error executorCoreErrMsg) ∧
         (matchQuantity f.driverCoreRequest = true →
          matchQuantity f.driverMemory = true →
          matchQuantity f.executorCoreRequest = true →
          matchQuantity f.executorMemory = false →
            validate jsonOk f = .error executorMemErrMsg))) ∧
    (matchQuantity "1BB" = false ∧ matchQuantity "500m" = true) ∧
    (validate (fun _ => false) { defaultFlags with driverCoreRequest := "1BB" } = .error driverCoreErrMsg) ∧
    exceptIsOk (validate (fun _ => false) { defaultFlags with driverCoreRequest := "500m" }) = true := by
  refine ⟨?_, ?_, ⟨rfl, rfl⟩, rfl, rfl⟩
  · intro jsonOk f args sra h
    obtain ⟨c, _, _, _, q1, q2, q3, q4⟩ := validate_ok_form h
    exact ⟨q1, q2, q3, q4⟩
  · intro jsonOk f c h1 h2 h3 h4 h5 h6 hei
    obtain ⟨a, ha⟩ := validate_eq_resources_simple h1 h2 h3 h4 h5 h6
    exact ⟨fun hq => by rw [ha]; exact checkResources_err_dcr a hei hq,
           fun m1 hq => by rw [ha]; exact checkResources_err_dm a hei m1 hq,
           fun m1 m2 hq => by rw [ha]; exact checkResources_err_ecr a hei m1 m2 hq,
           fun m1 m2 m3 hq => by rw [ha]; exact checkResources_err_em a hei m1 m2 m3 hq⟩

/-- Witness for C5: validation of the default flags succeeds, so all four
default quantity strings match the grammar. -/
theorem c5_quantity_grammar_witness :
    matchQuantity defaultFlags.driverCoreRequest = true ∧
    matchQuantity defaultFlags.driverMemory = true ∧
    matchQuantity defaultFlags.executorCoreRequest = true ∧
    matchQuantity defaultFlags.executorMemory = true :=
  c5_quantity_grammar.1 (fun _ => false) defaultFlags
    ["--type", "initial", "--limit", "0", "--option", "1",
     "--rm_labels", "true", "--to_services", "true"]
    ⟨1, "200m", "512M", "200m", "512M"⟩ rfl

/-- C10 (dots pass the quantity check): the leading group of the quantity
regular expression is an optional sign followed by one or more characters
from digits and the dot, so any non-empty string of digits and dots —
optionally signed — matches, including strings with no digit at all such as
`.` and `...`, and such a value passes the full validation. -/
theorem c10_dot_quantities_accepted :
    (∀ cs : List Char, cs ≠ [] → cs.all isDigitOrDot = true →
        matchQuantityChars cs = true ∧ matchQuantityChars ('+' :: cs) = true ∧
        matchQuantityChars ('-' :: cs) = true) ∧
    (matchQuantity "." = true ∧ matchQuantity "..." = true) ∧
    exceptIsOk (validate (fun _ => false) { defaultFlags with driverCoreRequest := "." }) = true := by
  refine ⟨?_, ⟨rfl, rfl⟩, rfl⟩
  intro cs hne hall
  match cs with
  | c :: rest =>
    rw [List.all_cons, Bool.and_eq_true] at hall
    refine ⟨?_, ?_, ?_⟩
    · simp [matchQuantityChars, isSign_false_of_digitOrDot hall.1, hall.1,
            matchRest_of_digitsDots rest hall.2]
    · simp [matchQuantityChars, isSign, hall.1, matchRest_of_digitsDots rest hall.2]
    · simp [matchQuantityChars, isSign, hall.1, matchRest_of_digitsDots rest hall.2]

/-- Witness for C10: the digitless strings `.` and `...` match, signed or
not. -/
theorem c10_dot_quantities_accepted_witness :
    matchQuantityChars ['.'] = true ∧ matchQuantityChars ['+', '.'] = true ∧
    matchQuantityChars ['-', '.'] = true :=
  c10_dot_quantities_accepted.1 ['.'] (by decide) (by decide)

/-- C6 (JobID freshness and embedding): when a spec is built, the generated
ID is embedded both in the resource name (`policy-reco-<id>`) and at the end
of the argument list (`--id <id>`); with `uuid.New` — library code — modelled
as an injective supply of fresh identifiers (a collision of the random
source is treated as catastrophic and not handled), building several specs
from the same request yields pairwise distinct names; and the embedded ID
never depends on the request content. -/
theorem c6_jobid_freshness :
    (∀ (jsonOk : String → Bool) (f : Flags) (id : String) (app : SparkApplication),
        buildForRequest jsonOk f id = some app →
        app.name = "policy-reco-" ++ id ∧ ∃ pre, app.arguments = pre ++ ["--id", id]) ∧
    (∀ supply : Nat → String, Function.Injective supply →
      ∀ (jsonOk : String → Bool) (f : Flags) (i j : Nat) (appi appj : SparkApplication),
        buildForRequest jsonOk f (supply i) = some appi →
        buildForRequest jsonOk f (supply j) = some appj →
        appi.name = appj.name → i = j) ∧
    (∀ (jsonOk1 jsonOk2 : String → Bool) (f g : Flags) (id : String)
        (appf appg : SparkApplication),
        buildForRequest jsonOk1 f id = some appf → buildForRequest jsonOk2 g id = some appg →
        appf.name = appg.name) := by
  refine ⟨?_, ?_, ?_⟩
  · intro jsonOk f id app h
    unfold buildForRequest at h
    split at h
    · cases h
    · next args sra hv =>
      cases h
      exact ⟨rfl, args, rfl⟩
  · intro supply hinj jsonOk f i j appi appj hi hj hname
    unfold buildForRequest at hi hj
    split at hi
    · cases hi
    · next argsi srai hvi =>
      cases hi
      split at hj
      · cases hj
      · next argsj sraj hvj =>
        cases hj
        have heq : "policy-reco-" ++ supply i = "policy-reco-" ++ supply j := hname
        exact hinj (string_append_cancel_left heq)
  · intro jsonOk1 jsonOk2 f g id appf appg hf hg
    unfold buildForRequest at hf hg
    split at hf
    · cases hf
    · next argsf sraf hvf =>
      cases hf
      split at hg
      · cases hg
      · next argsg srag hvg =>
        cases hg
        rfl

/-- Witness for C6: building from the default flags with ID `abc` yields the
resource name `policy-reco-abc`. -/
theorem c6_jobid_freshness_witness :
    (buildApp ["--type", "initial", "--limit", "0", "--option", "1",
               "--rm_labels", "true", "--to_services", "true"]
       ⟨1, "200m", "512M", "200m", "512M"⟩ "abc").name = "policy-reco-" ++ "abc" :=
  (c6_jobid_freshness.1 (fun _ => false) defaultFlags "abc"
    (buildApp ["--type", "initial", "--limit", "0", "--option", "1",
               "--rm_labels", "true", "--to_services", "true"]
       ⟨1, "200m", "512M", "200m", "512M"⟩ "abc") rfl).1

/-- C7 (fetch preconditions): an empty supplied endpoint skips the URL
check — the phase\x27s outcome is independent of the URL parser; a non-empty
endpoint that fails URL parsing gives the distinct endpoint-decoding error;
and when the endpoint check passes but the ClickHouse serving pod is absent,
the phase stops with the pod-check\x27s own error, independent of the query
outcome — a precondition failure, not a query error. -/
theorem c7_fetch_preconditions :
    (∀ (env : Env) (u1 u2 : String → Bool) (f : Flags), f.clickhouseEndpoint = "" →
        resultPhase { env with urlOk := u1 } f = resultPhase { env with urlOk := u2 } f) ∧
    (∀ (env : Env) (f : Flags), f.clickhouseEndpoint ≠ "" →
        env.urlOk f.clickhouseEndpoint = false →
        resultPhase env f = ([], some (endpointErrMsg f.clickhouseEndpoint))) ∧
    (∀ (env : Env) (f : Flags) (e : String),
        (f.clickhouseEndpoint = "" ∨ env.urlOk f.clickhouseEndpoint = true) →
        env.chPodErr = some e → resultPhase env f = ([], some e)) := by
  refine ⟨?_, ?_, ?_⟩
  · intro env u1 u2 f h
    simp [resultPhase, h]
  · intro env f h hu
    simp [resultPhase, h, hu]
  · intro env f e hok hpod
    rcases hok with h | h <;> simp [resultPhase, h, hpod]

/-- Witness for C7: a malformed non-empty endpoint yields the
endpoint-decoding error. -/
theorem c7_fetch_preconditions_witness :
    resultPhase benignEnv { defaultFlags with clickhouseEndpoint := "bad endpoint" } =
      ([], some (endpointErrMsg "bad endpoint")) :=
  c7_fetch_preconditions.2.1 benignEnv { defaultFlags with clickhouseEndpoint := "bad endpoint" }
    (by decide) rfl

/-- C8 (empty artifact is not an error): with the preconditions satisfied, a
retrieval returning the empty artifact produces no print effect and no
error; a non-empty artifact is printed; and after a successful poll the
whole invocation returns the result phase\x27s outcome, so it exits
successfully in the empty case. -/
theorem c8_empty_result_success :
    (∀ (env : Env) (f : Flags), f.clickhouseEndpoint = "" → env.chPodErr = none →
        env.fetchResult = .ok "" → resultPhase env f = ([], none)) ∧
    (∀ (env : Env) (f : Flags) (s : String), f.clickhouseEndpoint = "" → env.chPodErr = none →
        env.fetchResult = .ok s → s ≠ "" → resultPhase env f = ([.printResult s], none)) ∧
    (∀ (env : Env) (f : Flags) (id : String) (args : List String) (sra : SparkResourceArgs)
        (q : Nat),
        validate env.jsonOk f = .ok (args, sra) → env.kubeconfigErr = none →
        env.clientErr = none → env.preCheckErr = none → env.submitErr = none →
        f.waitFlag = true → runPoll env.script = .success q →
        runE env f id = (.submit (buildApp args sra id) :: (resultPhase env f).1,
                         (resultPhase env f).2)) := by
  refine ⟨?_, ?_, ?_⟩
  · intro env f he hp hr
    simp [resultPhase, he, hp, hr]
  · intro env f s he hp hr hs
    simp [resultPhase, he, hp, hr, hs]
  · intro env f id args sra q hv hk hc hpre hsub hw hpoll
    simp [runE, hv, hk, hc, hpre, hsub, hw, hpoll]

/-- Witness for C8: in the benign environment the retrieval returns the
empty artifact and the result phase prints nothing and reports no error. -/
theorem c8_empty_result_success_witness :
    resultPhase benignEnv defaultFlags = ([], none) :=
  c8_empty_result_success.1 benignEnv defaultFlags rfl rfl rfl

end Theia
